import Mathlib

set_option linter.unusedVariables false

set_option maxRecDepth 200000

/-!
Shallow embedding of the sandboxed shell tool of `maruel/genaitools`
(package `shelltool` plus its platform variants), together with proofs
about the staging, policy-building and exit-code-mapping behaviour.

Modelling conventions:
* The filesystem is a list of paths; every filesystem operation of the
  code is recorded as an `FSEvent` so that cleanup properties ("removed
  exactly once", "absent after return") can be stated over the event
  trace and the final filesystem.
* Fallible OS operations (`os.CreateTemp`, `WriteString`, `Close`,
  process execution, the Windows container-profile API) are driven by
  explicit oracles that choose whether each operation succeeds, so a
  theorem quantifying over the oracle covers every exit path of the Go
  code.
* Go's `(value, err)` returns become pairs with an `Option String`
  error component; `defer` statements are inlined at each return point
  in LIFO order, exactly as Go runs them.
-/

namespace Shelltool

/-- A filesystem event performed by the shell tool code: temp-file
creation, the write of the script body, the close of the file, or a
call to `os.Remove` on a path. -/
inductive FSEvent where
  | create (p : String)
  | write (p : String)
  | close (p : String)
  | removeCall (p : String)
  deriving DecidableEq, BEq, Repr

/-- Outcome oracle for one `writeTempFile` call: whether `os.CreateTemp`,
`WriteString` and `Close` succeed. -/
structure StageOracle where
  createOk : Bool
  writeOk : Bool
  closeOk : Bool
  deriving DecidableEq, Repr

/-- The world the staging code acts on: the set of files present and a
counter supplying fresh temp-file names (modelling `os.CreateTemp`'s
collision-resistant random names). -/
structure World where
  fs : List String
  ctr : Nat
  deriving DecidableEq, Repr

/-- The fresh name `os.CreateTemp("", g)` produces for pattern `g` when
the name counter is `n`. -/
def tempName (g : String) (n : Nat) : String :=
  "/tmp/" ++ g ++ Nat.repr n

/-- Result of one `writeTempFile` call: the returned name, the returned
error (if any), the world afterwards, and the events of the call. -/
structure StageResult where
  name : String
  err : Option String
  world : World
  evts : List FSEvent
  deriving DecidableEq, Repr

/-- Embedding of `writeTempFile` (shelltool.go): create a fresh temp
file; on create failure return `("", err)`; on write failure remove the
file and return `("", err)`; otherwise close and return the name
together with the close error (which is `none` on success). -/
def writeTempFile (o : StageOracle) (g : String) (content : String) (w : World) :
    StageResult :=
  if o.createOk = false then
    { name := "", err := some "failed to create temp file", world := w, evts := [] }
  else
    let n := tempName g w.ctr
    let w1 : World := { fs := n :: w.fs, ctr := w.ctr + 1 }
    if o.writeOk = false then
      { name := "", err := some "failed to write to temp file",
        world := { w1 with fs := w1.fs.erase n },
        evts := [FSEvent.create n, FSEvent.removeCall n] }
    else
      if o.closeOk = false then
        { name := n, err := some "close failed", world := w1,
          evts := [FSEvent.create n, FSEvent.write n, FSEvent.close n] }
      else
        { name := n, err := none, world := w1,
          evts := [FSEvent.create n, FSEvent.write n, FSEvent.close n] }

/-- Number of `os.Remove` calls targeting path `p` in an event trace. -/
def removeCount (p : String) (evts : List FSEvent) : Nat :=
  (evts.filter (fun e => e = FSEvent.removeCall p)).length

/-- Effect of `os.Remove p` (its error, if the file is absent, is
ignored by the callers). -/
def removeFile (p : String) (w : World) : World :=
  { w with fs := w.fs.erase p }

example : removeCount "/tmp/a" [FSEvent.removeCall "/tmp/a", FSEvent.create "/tmp/a"] = 1 := by
  decide

example :
    (writeTempFile ⟨true, false, true⟩ "ask.*.sh" "echo" ⟨[], 0⟩).world.fs = [] := by
  decide

/-- The macOS sandbox profile used when network access is allowed
(`sbAllowNetwork` in shelltool_darwin.go), byte for byte. -/
def sbAllowNetwork : String :=
  "(version 1)\n\n; Default policy: deny everything\n(deny default)\n\n; Allow process execution\n(allow process-exec*)\n(allow process-fork)\n(allow sysctl-read)\n(allow mach-lookup)\n(allow mach-task-name)\n\n; Allow all network access\n(allow network*)\n(allow system-socket)\n(allow network-outbound (remote tcp \"*:*\"))\n(allow network-outbound (remote udp \"*:*\"))\n(allow network-outbound (remote ip \"*:*\"))\n(allow system-info)\n(allow file-read-metadata)\n\n; Allow read-only access to files\n(allow file-read*)\n\n; Deny all file write operations\n(deny file-write*)\n\n; Allow write to /tmp\n(allow file-write* (subpath \"/tmp\"))\n"

/-- The macOS sandbox profile used when network access is denied
(`sbNoNetwork` in shelltool_darwin.go), byte for byte. -/
def sbNoNetwork : String :=
  "(version 1)\n\n; Default policy: deny everything\n(deny default)\n\n; Allow process execution\n(allow process-exec*)\n(allow process-fork)\n(allow sysctl-read)\n(allow mach-lookup)\n(allow mach-task-name)\n\n; Deny all network access\n(deny network*)\n\n; Allow read-only access to files\n(allow file-read*)\n\n; Deny all file write operations\n(deny file-write*)\n\n; Allow basic system services needed for execution\n(allow sysctl-read)\n(allow mach-lookup)\n\n; Allow write to /tmp\n(allow file-write* (subpath \"/tmp\"))\n"

/-- Profile selection of the darwin callback: `sandbox := sbNoNetwork;
if allowNetwork { sandbox = sbAllowNetwork }`. -/
def selectProfile (allowNetwork : Bool) : String :=
  if allowNetwork then sbAllowNetwork else sbNoNetwork

/-- The lines of a profile text, split at newlines. -/
def profileLines (p : String) : List String :=
  p.splitOn "\n"

/-- Outcome oracle for one darwin callback invocation: the staging
outcomes for the profile file and the script file, and the outcome of
`cmd.CombinedOutput()` (its output and its error). -/
structure CallOracle where
  sbStage : StageOracle
  scriptStage : StageOracle
  execOut : String
  execErr : Option String
  deriving Repr

/-- Result of one darwin callback invocation. -/
structure CallResult where
  out : String
  err : Option String
  world : World
  evts : List FSEvent
  deriving Repr

/-- Embedding of the darwin `getShellTool` callback
(shelltool_darwin.go): select the profile, stage it to a temp file,
stage the script to a second temp file, run `sandbox-exec` on both, and
run the two deferred `os.Remove` calls in LIFO order at each return
point.  Returns immediately (no `defer` registered yet) when a staging
step reports an error. -/
def darwinCallback (o : CallOracle) (allowNetwork : Bool) (script : String) (w : World) :
    CallResult :=
  let sandbox := selectProfile allowNetwork
  let r1 := writeTempFile o.sbStage "ask.*.sb" sandbox w
  match r1.err with
  | some e => { out := "", err := some e, world := r1.world, evts := r1.evts }
  | none =>
    let askSB := r1.name
    let r2 := writeTempFile o.scriptStage "ask.*.sh" script r1.world
    match r2.err with
    | some e =>
      { out := "", err := some e,
        world := removeFile askSB r2.world,
        evts := r1.evts ++ r2.evts ++ [FSEvent.removeCall askSB] }
    | none =>
      let scriptPath := r2.name
      { out := o.execOut, err := o.execErr,
        world := removeFile askSB (removeFile scriptPath r2.world),
        evts := r1.evts ++ r2.evts ++
          [FSEvent.removeCall scriptPath, FSEvent.removeCall askSB] }

/-- The lines of `sbAllowNetwork`, in order. -/
def sbAllowNetworkLines : List String :=
  ["(version 1)",
   "",
   "; Default policy: deny everything",
   "(deny default)",
   "",
   "; Allow process execution",
   "(allow process-exec*)",
   "(allow process-fork)",
   "(allow sysctl-read)",
   "(allow mach-lookup)",
   "(allow mach-task-name)",
   "",
   "; Allow all network access",
   "(allow network*)",
   "(allow system-socket)",
   "(allow network-outbound (remote tcp \"*:*\"))",
   "(allow network-outbound (remote udp \"*:*\"))",
   "(allow network-outbound (remote ip \"*:*\"))",
   "(allow system-info)",
   "(allow file-read-metadata)",
   "",
   "; Allow read-only access to files",
   "(allow file-read*)",
   "",
   "; Deny all file write operations",
   "(deny file-write*)",
   "",
   "; Allow write to /tmp",
   "(allow file-write* (subpath \"/tmp\"))"]

/-- The lines of `sbNoNetwork`, in order. -/
def sbNoNetworkLines : List String :=
  ["(version 1)",
   "",
   "; Default policy: deny everything",
   "(deny default)",
   "",
   "; Allow process execution",
   "(allow process-exec*)",
   "(allow process-fork)",
   "(allow sysctl-read)",
   "(allow mach-lookup)",
   "(allow mach-task-name)",
   "",
   "; Deny all network access",
   "(deny network*)",
   "",
   "; Allow read-only access to files",
   "(allow file-read*)",
   "",
   "; Deny all file write operations",
   "(deny file-write*)",
   "",
   "; Allow basic system services needed for execution",
   "(allow sysctl-read)",
   "(allow mach-lookup)",
   "",
   "; Allow write to /tmp",
   "(allow file-write* (subpath \"/tmp\"))"]

example : sbAllowNetwork = String.intercalate "\n" sbAllowNetworkLines ++ "\n" := by decide

example : sbNoNetwork = String.intercalate "\n" sbNoNetworkLines ++ "\n" := by decide

/-- Embedding of the argument vector the Linux (`!windows && !darwin`)
`getShellTool` callback passes to `bwrap`: the fixed directive list, the
conditional `--unshare-net`, and the trailing interpreter command. -/
def bwrapArgs (script : String) (allowNetwork : Bool) : List String :=
  ["--ro-bind", "/", "/",
   "--tmpfs", "/tmp",
   "--dev", "/dev",
   "--proc", "/proc",
   "--bind", script, script]
  ++ (if !allowNetwork then ["--unshare-net"] else [])
  ++ ["--", "/bin/bash", script]

/-- One hexadecimal digit, lowercase, as in Go's `%x`. -/
def hexDigit (n : Nat) : Char :=
  if n < 10 then Char.ofNat (48 + n) else Char.ofNat (87 + n)

/-- Go's `%08x`: eight zero-padded lowercase hexadecimal digits, for
values below `2^32`. -/
def hex8 (n : Nat) : String :=
  String.mk ((List.range 8).map (fun i => hexDigit (n / 16 ^ (7 - i) % 16)))

example : hex8 0x800700B7 = "800700b7" := by decide

example : hex8 256 = "00000100" := by decide

/-- Embedding of the exit-code mapping at the end of
`runWithAppContainer` (identical in both Windows variants): exit code 0
yields no error; codes above 255 yield `"exit code 0x%08x"`; other
nonzero codes yield `"exit code %d"`; the accumulated pipe output is
returned in every case. -/
def mapExitCode (stdout : String) (exitCode : Nat) : String × Option String :=
  if exitCode ≠ 0 then
    if exitCode > 255 then
      (stdout, some ("exit code 0x" ++ hex8 exitCode))
    else
      (stdout, some ("exit code " ++ Nat.repr exitCode))
  else
    (stdout, none)

/-- `CreateRestrictedToken` flag `DISABLE_MAX_PRIVILEGE` (both Windows
variants). -/
def DisableMaxPrivilege : Nat := 0x1

/-- `CreateRestrictedToken` flag `LUA_TOKEN` (both Windows variants). -/
def LUAToken : Nat := 0x4

/-- `CreateRestrictedToken` flag `WRITE_RESTRICTED` (both Windows
variants). -/
def WriteRestricted : Nat := 0x8

/-- The flags word both Windows variants pass to
`CreateRestrictedToken`: the literal `DisableMaxPrivilege|LUAToken`
(the source comments out `|WRITE_RESTRICTED`), independent of
`allowNetwork`. -/
def restrictedTokenFlags (allowNetwork : Bool) : Nat :=
  DisableMaxPrivilege ||| LUAToken

end Shelltool

namespace Shelltool.WinA

/-- Capability SID constants of the first (gated-off) Windows variant,
which follows the documented well-known capability SID list. -/
def WellKnownSIDCapabilityInternetClient : String := "S-1-15-3-1"

def WellKnownSIDCapabilityInternetClientServer : String := "S-1-15-3-2"

def WellKnownSIDCapabilityPrivateNetworkClientServer : String := "S-1-15-3-3"

def WellKnownSIDCapabilityPicturesLibrary : String := "S-1-15-3-4"

def WellKnownSIDCapabilityVideosLibrary : String := "S-1-15-3-5"

def WellKnownSIDCapabilityMusicLibrary : String := "S-1-15-3-6"

def WellKnownSIDCapabilityDocumentsLibrary : String := "S-1-15-3-7"

def WellKnownSIDCapabilityEnterpriseAuthentication : String := "S-1-15-3-8"

def WellKnownSIDCapabilitySharedUserCertificates : String := "S-1-15-3-9"

def WellKnownSIDCapabilityRemovableStorage : String := "S-1-15-3-10"

/-- The capability list the first Windows variant builds in
`runWithAppContainer` when `allowNetwork` is false (the three network
capabilities are commented out in the source). -/
def noNetworkCaps : List String :=
  [WellKnownSIDCapabilityDocumentsLibrary,
   WellKnownSIDCapabilityPicturesLibrary,
   WellKnownSIDCapabilityVideosLibrary,
   WellKnownSIDCapabilityMusicLibrary,
   WellKnownSIDCapabilityRemovableStorage]

end Shelltool.WinA

namespace Shelltool.WinB

/-- Capability SID constants of the second Windows variant.  Note the
same SID values `S-1-15-3-1`..`S-1-15-3-3` are declared twice, once
labelled as library folders and once as the network capabilities. -/
def WellKnownSIDCapabilityDocumentsLibrary : String := "S-1-15-3-1"

def WellKnownSIDCapabilityPicturesLibrary : String := "S-1-15-3-2"

def WellKnownSIDCapabilityVideosLibrary : String := "S-1-15-3-3"

def WellKnownSIDCapabilityMusicLibrary : String := "S-1-15-3-4"

def WellKnownSIDCapabilityRemovableStorage : String := "S-1-15-3-5"

def WellKnownSIDCapabilityInternetClient : String := "S-1-15-3-1"

def WellKnownSIDCapabilityInternetClientServer : String := "S-1-15-3-2"

def WellKnownSIDCapabilityPrivateNetworkClientServer : String := "S-1-15-3-3"

/-- The capability list the second Windows variant builds in
`runWithAppContainer` when `allowNetwork` is false: it includes the
three network capabilities explicitly. -/
def noNetworkCaps : List String :=
  [WellKnownSIDCapabilityDocumentsLibrary,
   WellKnownSIDCapabilityPicturesLibrary,
   WellKnownSIDCapabilityVideosLibrary,
   WellKnownSIDCapabilityMusicLibrary,
   WellKnownSIDCapabilityRemovableStorage,
   WellKnownSIDCapabilityInternetClient,
   WellKnownSIDCapabilityInternetClientServer,
   WellKnownSIDCapabilityPrivateNetworkClientServer]

end Shelltool.WinB

namespace Shelltool

/-- The well-known SID strings of the three Windows network
capabilities `internetClient`, `internetClientServer` and
`privateNetworkClientServer` (the fixed OS-defined registry the spec's
capability table refers to). -/
def networkCapabilitySIDs : List String :=
  ["S-1-15-3-1", "S-1-15-3-2", "S-1-15-3-3"]

/-- `HRESULT_FROM_WIN32(ERROR_ALREADY_EXISTS)`, the "profile already
exists" result code of `CreateAppContainerProfile`. -/
def hresultAlreadyExists : Nat := 0x800700B7

/-- Oracle for one `createContainer` call: the result codes the OS
returns for the first `CreateAppContainerProfile` call and (if it is
made) for the retry. -/
structure ContainerOracle where
  ret1 : Nat
  ret2 : Nat
  deriving DecidableEq, Repr

/-- Result of `createContainer`: the error (if any) and how many
`CreateAppContainerProfile` / `DeleteAppContainerProfile` calls were
made. -/
structure ContainerResult where
  err : Option String
  creates : Nat
  deletes : Nat
  deriving DecidableEq, Repr

/-- Error message of `createContainer` for result code `ret`
(`"CreateAppContainerProfile failed with code: 0x%08x, error: %w"`). -/
def containerErrMsg (ret : Nat) : String :=
  "CreateAppContainerProfile failed with code: 0x" ++ hex8 ret ++ ", error: oserr"

/-- Embedding of `createContainer` (identical retry structure in both
Windows variants): call `CreateAppContainerProfile`; if it returns the
"already exists" code, delete the profile and retry once; any result
code still nonzero is returned as an error carrying the code. -/
def createContainer (o : ContainerOracle) : ContainerResult :=
  let ret := o.ret1
  if ret ≠ 0 then
    if ret = hresultAlreadyExists then
      let ret' := o.ret2
      if ret' ≠ 0 then
        { err := some (containerErrMsg ret'), creates := 2, deletes := 1 }
      else
        { err := none, creates := 2, deletes := 1 }
    else
      { err := some (containerErrMsg ret), creates := 1, deletes := 0 }
  else
    { err := none, creates := 1, deletes := 0 }

/-- A capability probe event: one `exec.LookPath` call. -/
inductive ProbeEvent where
  | lookPath (binary : String)
  deriving DecidableEq, Repr

/-- The host environment the Linux prober sees: whether `bwrap` and
`/bin/bash` resolve. -/
structure Env where
  hasBwrap : Bool
  hasBash : Bool
  deriving DecidableEq, Repr

/-- Embedding of the probing part of the Linux `getShellTool`: look up
`bwrap`, then (if found) `/bin/bash`; returns the construction error
(if any) and the probe events the call performed. -/
def linuxGetShellTool (e : Env) : Option String × List ProbeEvent :=
  if e.hasBwrap = false then
    (some "bwrap not found (install with sudo apt install bubblewrap)",
     [ProbeEvent.lookPath "bwrap"])
  else if e.hasBash = false then
    (some "bash not found",
     [ProbeEvent.lookPath "bwrap", ProbeEvent.lookPath "/bin/bash"])
  else
    (none, [ProbeEvent.lookPath "bwrap", ProbeEvent.lookPath "/bin/bash"])

/-- Embedding of `New` (shelltool.go): it simply calls `getShellTool`,
with no caching or once-guard. -/
def new (e : Env) : Option String × List ProbeEvent :=
  linuxGetShellTool e

/-- The probe-event trace of a sequence of `n` consecutive `New` calls
in one process. -/
def newSeq (e : Env) : Nat → List ProbeEvent
  | 0 => []
  | n + 1 => newSeq e n ++ (new e).2

/-- Claim C5: for every script path the Linux policy builder produces
the fixed directive list (root bound read-only, fresh `/tmp`, `/dev`,
`/proc`, explicit re-bind of the staged script path, then the
interpreter command), and `--unshare-net` is in the argument vector if
and only if `allowNetwork` is false. -/
theorem linux_bwrap_directives (script : String) (allowNetwork : Bool)
    (h : script ≠ "--unshare-net") :
    bwrapArgs script allowNetwork =
      ["--ro-bind", "/", "/", "--tmpfs", "/tmp", "--dev", "/dev", "--proc", "/proc",
       "--bind", script, script]
      ++ (if allowNetwork then [] else ["--unshare-net"])
      ++ ["--", "/bin/bash", script] ∧
    ("--unshare-net" ∈ bwrapArgs script allowNetwork ↔ allowNetwork = false) := by
  have h' : "--unshare-net" ≠ script := Ne.symm h
  cases allowNetwork <;> refine ⟨by simp [bwrapArgs], ?_⟩ <;> simp [bwrapArgs, h']

/-- Witness for `linux_bwrap_directives` at a concrete staged path. -/
theorem linux_bwrap_directives_witness :
    "--unshare-net" ∈ bwrapArgs "/tmp/ask.1.sh" false :=
  (linux_bwrap_directives "/tmp/ask.1.sh" false (by decide)).2.mpr rfl

/-- Claim C6: the macOS policy builder selects the network-allowed
profile text exactly when `allowNetwork` is true and the
network-denied text otherwise; both fixed texts deny by default, allow
process exec and fork, allow read-only filesystem access, and the only
filesystem-write allowance in either is the one scoped under `/tmp`. -/
theorem macos_profile_selection :
    (∀ b : Bool, selectProfile b = sbAllowNetwork ↔ b = true) ∧
    (∀ b : Bool, selectProfile b = sbNoNetwork ↔ b = false) ∧
    sbAllowNetwork = String.intercalate "\n" sbAllowNetworkLines ++ "\n" ∧
    sbNoNetwork = String.intercalate "\n" sbNoNetworkLines ++ "\n" ∧
    (∀ ls ∈ [sbAllowNetworkLines, sbNoNetworkLines],
      "(deny default)" ∈ ls ∧
      "(allow process-exec*)" ∈ ls ∧
      "(allow process-fork)" ∈ ls ∧
      "(allow file-read*)" ∈ ls ∧
      "(deny file-write*)" ∈ ls ∧
      "(allow file-write* (subpath \"/tmp\"))" ∈ ls ∧
      (∀ l ∈ ls, "(allow file-write*".toList <+: l.toList →
        l = "(allow file-write* (subpath \"/tmp\"))")) := by
  decide

/-- Witness for `macos_profile_selection` at the network-denied lines. -/
theorem macos_profile_selection_witness :
    "(deny default)" ∈ sbNoNetworkLines :=
  (macos_profile_selection.2.2.2.2 sbNoNetworkLines (by decide)).1

/-- Claim C4: exit code 0 yields success with the output and no error;
codes 1..255 yield a failure message containing the decimal code;
codes above 255 yield a failure message containing the code in
hexadecimal; the accumulated output is returned in every case. -/
theorem exit_code_mapping (out : String) (c : Nat) (hc : c < 2 ^ 32) :
    (c = 0 → mapExitCode out c = (out, none)) ∧
    (1 ≤ c → c ≤ 255 →
      ∃ m, mapExitCode out c = (out, some m) ∧ (Nat.repr c).data <:+: m.data) ∧
    (255 < c →
      ∃ m, mapExitCode out c = (out, some m) ∧ (hex8 c).data <:+: m.data) ∧
    (mapExitCode out c).1 = out := by
  refine ⟨fun h0 => by simp [mapExitCode, h0], ?_, ?_, ?_⟩
  · intro h1 h2
    have hne : c ≠ 0 := by omega
    have hle : ¬ 255 < c := by omega
    refine ⟨"exit code " ++ Nat.repr c, by simp [mapExitCode, hne, hle],
      "exit code ".data, [], ?_⟩
    simp [String.data_append]
  · intro h3
    have hne : c ≠ 0 := by omega
    refine ⟨"exit code 0x" ++ hex8 c, by simp [mapExitCode, hne, h3],
      "exit code 0x".data, [], ?_⟩
    simp [String.data_append]
  · by_cases h0 : c = 0
    · simp [mapExitCode, h0]
    · by_cases h3 : 255 < c <;> simp [mapExitCode, h0, h3]

/-- Witness for `exit_code_mapping` at output `"hi"` and code 300. -/
theorem exit_code_mapping_witness :
    ∃ m, mapExitCode "hi" 300 = ("hi", some m) ∧ (hex8 300).data <:+: m.data :=
  (exit_code_mapping "hi" 300 (by decide)).2.2.1 (by decide)

/-- Claim C7: `createContainer` succeeds without retry on result 0;
on the "already exists" code it deletes the profile and retries
creation exactly once, erring only if the retry also fails; any other
nonzero result is propagated without retry; every error message
carries the failing result code in hexadecimal. -/
theorem createContainer_retry (o : ContainerOracle) :
    (o.ret1 = 0 → createContainer o = ⟨none, 1, 0⟩) ∧
    (o.ret1 = hresultAlreadyExists →
      (createContainer o).deletes = 1 ∧ (createContainer o).creates = 2 ∧
      (o.ret2 = 0 → (createContainer o).err = none) ∧
      (o.ret2 ≠ 0 →
        ∃ m, (createContainer o).err = some m ∧ (hex8 o.ret2).data <:+: m.data)) ∧
    (o.ret1 ≠ 0 → o.ret1 ≠ hresultAlreadyExists →
      (createContainer o).deletes = 0 ∧ (createContainer o).creates = 1 ∧
      ∃ m, (createContainer o).err = some m ∧ (hex8 o.ret1).data <:+: m.data) := by
  refine ⟨fun h => by simp [createContainer, h], ?_, ?_⟩
  · intro h
    have hne : o.ret1 ≠ 0 := by rw [h]; decide
    by_cases h2 : o.ret2 = 0
    · refine ⟨by simp [createContainer, hne, h, h2, hresultAlreadyExists],
        by simp [createContainer, hne, h, h2, hresultAlreadyExists],
        fun _ => by simp [createContainer, hne, h, h2, hresultAlreadyExists],
        fun hcon => absurd h2 hcon⟩
    · refine ⟨by simp [createContainer, hne, h, h2, hresultAlreadyExists],
        by simp [createContainer, hne, h, h2, hresultAlreadyExists],
        fun hcon => absurd hcon h2, fun _ => ?_⟩
      refine ⟨containerErrMsg o.ret2, by simp [createContainer, hne, h, h2, hresultAlreadyExists],
        "CreateAppContainerProfile failed with code: 0x".data, ", error: oserr".data, ?_⟩
      simp [containerErrMsg, String.data_append]
  · intro h1 h2
    refine ⟨by simp [createContainer, h1, h2], by simp [createContainer, h1, h2], ?_⟩
    refine ⟨containerErrMsg o.ret1, by simp [createContainer, h1, h2],
      "CreateAppContainerProfile failed with code: 0x".data, ", error: oserr".data, ?_⟩
    simp [containerErrMsg, String.data_append]

/-- Witness for `createContainer_retry` at the already-exists code with
a successful retry. -/
theorem createContainer_retry_witness :
    (createContainer ⟨hresultAlreadyExists, 0⟩).err = none :=
  ((createContainer_retry ⟨hresultAlreadyExists, 0⟩).2.1 rfl).2.2.1 rfl

/-- Claim C9: when the write of the script body into the freshly
created temp file fails, `writeTempFile` removes the file before
returning the error: the filesystem is exactly as before the call, and
the trace is one create followed by one remove of that file. -/
theorem writeTempFile_write_error_cleanup (o : StageOracle) (g content : String) (w : World)
    (h1 : o.createOk = true) (h2 : o.writeOk = false) :
    (writeTempFile o g content w).err = some "failed to write to temp file" ∧
    (writeTempFile o g content w).world.fs = w.fs ∧
    (writeTempFile o g content w).evts =
      [FSEvent.create (tempName g w.ctr), FSEvent.removeCall (tempName g w.ctr)] ∧
    removeCount (tempName g w.ctr) (writeTempFile o g content w).evts = 1 := by
  refine ⟨by simp [writeTempFile, h1, h2], by simp [writeTempFile, h1, h2],
    by simp [writeTempFile, h1, h2], ?_⟩
  simp [writeTempFile, h1, h2, removeCount]

/-- Witness for `writeTempFile_write_error_cleanup` on a world holding
one unrelated file. -/
theorem writeTempFile_write_error_cleanup_witness :
    (writeTempFile ⟨true, false, true⟩ "ask.*.sh" "echo hi" ⟨["/x"], 0⟩).world.fs = ["/x"] :=
  (writeTempFile_write_error_cleanup ⟨true, false, true⟩ "ask.*.sh" "echo hi" ⟨["/x"], 0⟩
    rfl rfl).2.1

/-- Claim C3 counterexample: at `allowNetwork = false` the flags word
passed to `CreateRestrictedToken` does not include `WRITE_RESTRICTED`
(the source comments it out); it is exactly
`DisableMaxPrivilege|LUAToken`. -/
theorem restrictedToken_writeRestricted_missing :
    (restrictedTokenFlags false &&& WriteRestricted == WriteRestricted) = false ∧
    restrictedTokenFlags false = DisableMaxPrivilege ||| LUAToken := by
  decide

/-- Claim C3 amended: on every invocation, for either `allowNetwork`
value, the restricted token flags are exactly
`DisableMaxPrivilege|LUAToken`: maximum privileges stripped and LUA
set, and the write-restricted flag never set. -/
theorem restrictedToken_flags_constant :
    ∀ b : Bool,
      restrictedTokenFlags b = DisableMaxPrivilege ||| LUAToken ∧
      restrictedTokenFlags b &&& DisableMaxPrivilege = DisableMaxPrivilege ∧
      restrictedTokenFlags b &&& LUAToken = LUAToken ∧
      restrictedTokenFlags b &&& WriteRestricted = 0 := by
  decide

/-- Claim C8 counterexample: with `bwrap` and `bash` both present, the
second construction performs two further `LookPath` probes — the probe
trace of two `New` calls holds four events, two of them after the
first construction ended. -/
theorem probe_reruns_on_second_construction :
    newSeq ⟨true, true⟩ 2 =
      [ProbeEvent.lookPath "bwrap", ProbeEvent.lookPath "/bin/bash",
       ProbeEvent.lookPath "bwrap", ProbeEvent.lookPath "/bin/bash"] ∧
    ((newSeq ⟨true, true⟩ 2).drop (newSeq ⟨true, true⟩ 1).length).length = 2 := by
  decide

/-- Claim C8 amended: the capability probe runs on every construction
of the runner: each `New` call appends its own nonempty batch of probe
events to the process trace. -/
theorem probe_runs_on_every_construction (e : Env) (n : Nat) :
    newSeq e (n + 1) = newSeq e n ++ (new e).2 ∧
    1 ≤ (new e).2.length ∧
    (newSeq e (n + 1)).length = (newSeq e n).length + (new e).2.length := by
  refine ⟨rfl, ?_, by simp [newSeq]⟩
  cases e with
  | mk hb hs => cases hb <;> cases hs <;> simp [new, linuxGetShellTool]

/-- Claim C1 fails on the close-error staging path: when `Close` of the
staged script file reports an error, the darwin callback returns that
error before its `defer os.Remove(script)` is registered, so the
staged script file is never removed and is still present after the
call. -/
theorem darwin_staged_script_leak_on_close_error :
    ((darwinCallback ⟨⟨true, true, true⟩, ⟨true, true, false⟩, "", none⟩ true "echo hi"
        ⟨[], 0⟩).err).isSome = true ∧
    tempName "ask.*.sh" 1 ∈
      (darwinCallback ⟨⟨true, true, true⟩, ⟨true, true, false⟩, "", none⟩ true "echo hi"
        ⟨[], 0⟩).world.fs ∧
    removeCount (tempName "ask.*.sh" 1)
      (darwinCallback ⟨⟨true, true, true⟩, ⟨true, true, false⟩, "", none⟩ true "echo hi"
        ⟨[], 0⟩).evts = 0 := by
  decide

/-- Claim C10 fails on the same kind of path for the profile file: when
`Close` of the staged sandbox-profile file reports an error, the
darwin callback returns that error before its
`defer os.Remove(askSB)` is registered, so the profile temp file is
never removed and is still present after the call. -/
theorem darwin_profile_leak_on_close_error :
    ((darwinCallback ⟨⟨true, true, false⟩, ⟨true, true, true⟩, "", none⟩ false "echo hi"
        ⟨[], 0⟩).err).isSome = true ∧
    tempName "ask.*.sb" 0 ∈
      (darwinCallback ⟨⟨true, true, false⟩, ⟨true, true, true⟩, "", none⟩ false "echo hi"
        ⟨[], 0⟩).world.fs ∧
    removeCount (tempName "ask.*.sb" 0)
      (darwinCallback ⟨⟨true, true, false⟩, ⟨true, true, true⟩, "", none⟩ false "echo hi"
        ⟨[], 0⟩).evts = 0 := by
  decide

/-- Claim C2 fails on the second Windows variant: its no-network
capability list contains all three network capability SIDs
(`S-1-15-3-1`, `S-1-15-3-2`, `S-1-15-3-3` — internetClient,
internetClientServer, privateNetworkClientServer), while the first
(gated-off) variant's list contains none of them. -/
theorem windows_noNetwork_caps_contain_network_sids :
    networkCapabilitySIDs.all (fun s => WinB.noNetworkCaps.contains s) = true ∧
    WinB.WellKnownSIDCapabilityInternetClient ∈ WinB.noNetworkCaps ∧
    WinB.WellKnownSIDCapabilityInternetClientServer ∈ WinB.noNetworkCaps ∧
    WinB.WellKnownSIDCapabilityPrivateNetworkClientServer ∈ WinB.noNetworkCaps ∧
    networkCapabilitySIDs.all (fun s => !WinA.noNetworkCaps.contains s) = true := by
  decide

end Shelltool
